import Mathlib

/-!
Verification of the core of `evryquiktool` (`app.py`): the yt-dlp fetch
strategy engine (`try_download`), the output resolver (`find_final_file`),
the timecode parser (`parse_timecode`), the duration probe
(`ffprobe_duration_seconds`), the segment remover
(`remove_segment_with_concat`) and the relevant slice of the
`video_cropper` route.

The embedding is shallow: external subprocess/library calls are modelled
by oracle parameters describing what the external tool did, and Python
string/number builtins are modelled by executable Lean functions on
`List Char` (restricted to the decimal fragment the code exercises).
-/

set_option maxHeartbeats 1000000

/-- Python's whitespace set for `str.strip()` restricted to ASCII. -/
def isSpaceChar (c : Char) : Bool :=
  c = ' ' || c = '\t' || c = '\n' || c = '\r' || c = '\x0b' || c = '\x0c'

/-- Model of Python `str.strip()` on the character list. -/
def pyStripChars (l : List Char) : List Char :=
  ((l.dropWhile isSpaceChar).reverse.dropWhile isSpaceChar).reverse

/-- Model of Python `str.split(sep)` for a one-character separator:
`"".split(sep) = [""]`, and adjacent separators yield empty fields. -/
def pySplit (sep : Char) : List Char → List (List Char)
  | [] => [[]]
  | c :: rest =>
    let r := pySplit sep rest
    if c = sep then [] :: r
    else
      match r with
      | [] => [[c]]
      | h :: t => (c :: h) :: t

/-- `subListChars needle hay`: does `needle` occur contiguously in `hay`?
Models Python's `needle in hay` on strings. -/
def subListChars : List Char → List Char → Bool
  | n, [] => n.isEmpty
  | n, x :: xs => n.isPrefixOf (x :: xs) || subListChars n xs

/-- Python `needle in hay` on strings. -/
def subStr (needle hay : String) : Bool :=
  subListChars needle.data hay.data

/-- `l` is nonempty and consists only of ASCII decimal digits. -/
def allDigits (l : List Char) : Bool :=
  l.all (fun c => c.isDigit)

/-- Value of a digit string, most significant first. -/
def digitsVal (l : List Char) : Nat :=
  l.foldl (fun n c => 10 * n + (c.toNat - 48)) 0

/-!
## Fetch Strategy Engine (`try_download`, app.py lines 739-780)

The external `YoutubeDL(opts).download([url])` call is modelled by an
oracle mapping the (client profile, format recipe) pair of the attempt to
what the call did: returned an exit code, raised `DownloadError`, or
raised some other exception.
-/

/-- A client profile as in `CLIENT_ORDER`: `(player_client, use_cookies)`. -/
abbrev ClientProfile := String × Bool

/-- A format recipe as in `FORMAT_ORDER`: `(format selector, merge_output_format)`. -/
abbrev FormatRecipe := String × Option String

/-- One (profile, recipe) download attempt. -/
abbrev Attempt := ClientProfile × FormatRecipe

/-- app.py: `CLIENT_ORDER` — the ordered list of YouTube client profiles. -/
def CLIENT_ORDER : List ClientProfile :=
  [("web", true), ("ios", true), ("android", true),
   ("web", false), ("android", false)]

/-- app.py: `FORMAT_ORDER` — the ordered list of video format recipes. -/
def FORMAT_ORDER : List FormatRecipe :=
  [("bestvideo[ext=mp4]+bestaudio[ext=m4a]/best[ext=mp4]", some "mp4"),
   ("(bv*[vcodec*=avc1]/bv*)+(ba[acodec*=mp4a]/ba)/best", some "mp4"),
   ("bv*+ba/best", none),
   ("best", none)]

/-- The inner-loop recipe list of `try_download`:
`FORMAT_ORDER if want != "mp3" else [("bestaudio/best", None)]`. -/
def formats_for (want : String) : List FormatRecipe :=
  if want != "mp3" then FORMAT_ORDER else [("bestaudio/best", none)]

/-- What one external `ydl.download` invocation did: returned an exit
code, raised `DownloadError(msg)`, or raised another exception. -/
inductive YdlResult where
  | ret (code : Int)
  | downloadErr (msg : String)
  | otherExc (msg : String)
deriving DecidableEq

/-- app.py line 774: the retry condition on a `DownloadError` message —
`("Requested format is not available" in msg) or ("403" in msg) or
("Forbidden" in msg)`. -/
def retryable_msg_hit (msg : String) : Bool :=
  subStr "Requested format is not available" msg || subStr "403" msg ||
    subStr "Forbidden" msg

/-- The inner (format recipe) loop of `try_download` for one client
profile.  Returns the list of attempts made (in order), the final
`last_err`, and whether the loop returned with success.  A non-retryable
`DownloadError` or any other exception `break`s out of this loop only. -/
def try_formats (oracle : ClientProfile → FormatRecipe → YdlResult)
    (cl : ClientProfile) :
    List FormatRecipe → Option String → List Attempt × Option String × Bool
  | [], le => ([], le, false)
  | f :: fs, le =>
    match oracle cl f with
    | .ret code =>
      if code == 0 then ([(cl, f)], le, true)
      else
        let r := try_formats oracle cl fs
          (some ("yt-dlp exited with code " ++ toString code))
        ((cl, f) :: r.1, r.2)
    | .downloadErr msg =>
      if retryable_msg_hit msg then
        let r := try_formats oracle cl fs (some msg)
        ((cl, f) :: r.1, r.2)
      else ([(cl, f)], some msg, false)
    | .otherExc msg => ([(cl, f)], some msg, false)

/-- The outer (client profile) loop of `try_download`. -/
def try_clients (oracle : ClientProfile → FormatRecipe → YdlResult)
    (want : String) :
    List ClientProfile → Option String → List Attempt × Option String × Bool
  | [], le => ([], le, false)
  | c :: cs, le =>
    let r := try_formats oracle c (formats_for want) le
    if r.2.2 then r
    else
      let r2 := try_clients oracle want cs r.2.1
      (r.1 ++ r2.1, r2.2)

/-- Python `f"{x}"` on an `Optional[str]`. -/
def optionStr : Option String → String
  | some m => m
  | none => "None"

/-- app.py `try_download(url, outtmpl, want)`: runs the two nested loops
starting from `last_err = None`; on fall-through raises
`RuntimeError(f"Download failed after retries. Last error: {last_err}")`.
The URL and output template only flow into the oracle, so they are
elided.  Returns the attempt trace together with the outcome. -/
def try_download (oracle : ClientProfile → FormatRecipe → YdlResult)
    (want : String) : List Attempt × Except String Unit :=
  let r := try_clients oracle want CLIENT_ORDER none
  (r.1,
   if r.2.2 then Except.ok ()
   else Except.error ("Download failed after retries. Last error: " ++ optionStr r.2.1))

/-- Spec-level classification of one attempt (the `AttemptOutcome` of the
spec's data model), matching the branch structure of `try_download`. -/
inductive AttemptOutcome where
  | success
  | retryable (msg : String)
  | fatal (msg : String)
deriving DecidableEq

/-- Classify what one external invocation did, exactly as the
`try`/`except` branches of `try_download` do. -/
def classify : YdlResult → AttemptOutcome
  | .ret code =>
    if code == 0 then .success
    else .retryable ("yt-dlp exited with code " ++ toString code)
  | .downloadErr msg =>
    if retryable_msg_hit msg then .retryable msg else .fatal msg
  | .otherExc msg => .fatal msg

/-- Is the attempt outcome a retryable failure? -/
def isRetry (y : YdlResult) : Bool :=
  match classify y with
  | .retryable _ => true
  | _ => false

/-- The `last_err` string recorded for a retryable failure. -/
def retryMsg (y : YdlResult) : String :=
  match classify y with
  | .retryable m => m
  | _ => ""

/-- The last recipe of the inner loop for a given `want`. -/
def lastFmtFor (want : String) : FormatRecipe :=
  if want != "mp3" then ("best", none) else ("bestaudio/best", none)

/-- The full (profile × recipe) enumeration in loop order: profiles
outer, recipes inner. -/
def plannedAttempts (want : String) : List ClientProfile → List Attempt
  | [] => []
  | c :: cs => ((formats_for want).map fun f => (c, f)) ++ plannedAttempts want cs

/-- `last_err` after the inner loop has consumed `fs` with every attempt
a retryable failure. -/
def lastErrAfter (oracle : ClientProfile → FormatRecipe → YdlResult)
    (cl : ClientProfile) : List FormatRecipe → Option String → Option String
  | [], le => le
  | f :: fs, _ => lastErrAfter oracle cl fs (some (retryMsg (oracle cl f)))

/-- `last_err` after the outer loop has consumed `cs` with every attempt
a retryable failure. -/
def clientsLastErr (oracle : ClientProfile → FormatRecipe → YdlResult)
    (want : String) : List ClientProfile → Option String → Option String
  | [], le => le
  | c :: cs, le =>
    clientsLastErr oracle want cs (lastErrAfter oracle c (formats_for want) le)

/-!
## Output Resolver (`find_final_file`, app.py lines 782-789)

The filesystem directory is modelled as the list of its entries in
directory-iteration order — the (unsorted, OS-dependent) order in which
`pathlib` glob/exists traversal yields them.  `mtime` is carried so the
spec's "newest file" reading can be compared against the code.
-/

/-- One directory entry: name, modification time, and whether it is a
regular file. -/
structure DirEntry where
  name : String
  mtime : Nat
  isFile : Bool
deriving DecidableEq, Repr

/-- The canonical extension for the requested kind:
`'mp3' if want=='mp3' else 'mp4'`. -/
def canonicalExt (want : String) : String :=
  if want == "mp3" then "mp3" else "mp4"

/-- `base.*` glob match: the name starts with `base` followed by a dot. -/
def globMatch (base : String) (e : DirEntry) : Bool :=
  (base ++ ".").data.isPrefixOf e.name.data && e.isFile

/-- app.py `find_final_file(out_dir, base, want)`: return
`out_dir / f"{base}.{'mp3' if want=='mp3' else 'mp4'}"` if it exists,
otherwise the first regular file yielded by `out_dir.glob(f"{base}.*")`
in directory-iteration order, otherwise `None`. -/
def find_final_file (entries : List DirEntry) (base : String)
    (want : String) : Option DirEntry :=
  let expected := base ++ "." ++ canonicalExt want
  match entries.find? (fun e => e.name == expected) with
  | some e => some e
  | none => entries.find? (globMatch base)

/-- The `yt_vid_downloader` route after `try_download` succeeded
(app.py lines 817-820): a missing artifact is reported as an error
message, not retried. -/
def locate_or_error (entries : List DirEntry) (base : String)
    (want : String) : Except String DirEntry :=
  match find_final_file entries base want with
  | some e => Except.ok e
  | none => Except.error "Finished, but could not locate the output file."

/-- Modelled from the spec's words, for comparison with the code: "the
newest file in the directory whose name starts with `base_name` followed
by any extension" — the glob match with the greatest modification time. -/
def newestGlobMatch (entries : List DirEntry) (base : String) :
    Option DirEntry :=
  (entries.filter (globMatch base)).foldl
    (fun acc e =>
      match acc with
      | none => some e
      | some a => if a.mtime < e.mtime then some e else some a)
    none

/-!
## Timecode parser (`parse_timecode`, app.py lines 913-937)

Python's `float()` and `int()` builtins are modelled on the decimal
fragment the timecode grammar exercises: optional sign, decimal digits,
optional fractional part for `float()`.  Scientific notation, `inf`/
`nan` and digit underscores are outside the modelled fragment.
-/

/-- Unsigned decimal literal for `float()`: `d+`, `d+.d*`, `.d+` or
`d*.d+` (at least one digit overall). -/
def pyUnsignedFloat (l : List Char) : Option ℚ :=
  match pySplit '.' l with
  | [a] => if !a.isEmpty && allDigits a then some (digitsVal a : ℚ) else none
  | [a, b] =>
    if (!a.isEmpty || !b.isEmpty) && allDigits a && allDigits b then
      some ((digitsVal a : ℚ) + (digitsVal b : ℚ) / (10 ^ b.length : ℚ))
    else none
  | _ => none

/-- Model of Python `float(s)` on the decimal fragment. -/
def pyFloat? (l : List Char) : Option ℚ :=
  match pyStripChars l with
  | '-' :: rest => (pyUnsignedFloat rest).map Neg.neg
  | '+' :: rest => pyUnsignedFloat rest
  | t => pyUnsignedFloat t

/-- Model of Python `int(s)` on the decimal fragment. -/
def pyInt? (l : List Char) : Option ℤ :=
  match pyStripChars l with
  | '-' :: rest =>
    if !rest.isEmpty && allDigits rest then some (-(digitsVal rest : ℤ)) else none
  | '+' :: rest =>
    if !rest.isEmpty && allDigits rest then some (digitsVal rest : ℤ) else none
  | t => if !t.isEmpty && allDigits t then some (digitsVal t : ℤ) else none

/-- The regex fragment `\d+` (one or more digits). -/
def re_digits? (l : List Char) : Option Nat :=
  if !l.isEmpty && allDigits l then some (digitsVal l) else none

/-- The regex fragment `\d+(\.\d+)?` (seconds, fraction needs digits). -/
def re_seconds? (l : List Char) : Option ℚ :=
  match pySplit '.' l with
  | [a] => if !a.isEmpty && allDigits a then some (digitsVal a : ℚ) else none
  | [a, b] =>
    if !a.isEmpty && !b.isEmpty && allDigits a && allDigits b then
      some ((digitsVal a : ℚ) + (digitsVal b : ℚ) / (10 ^ b.length : ℚ))
    else none
  | _ => none

/-- app.py `_time_re` (line 142) applied to the stripped string, under
the engine's greedy group assignment: at most two colons can match —
`S`, `H:S` (first optional group binds the leading field) or `H:M:S`
with minutes limited to two digits.  A string with three or more colons
never matches. -/
def time_re_match (t : List Char) : Option ℚ :=
  match pySplit ':' t with
  | [a] => (re_seconds? a).map (fun sec => sec)
  | [a, b] => do
    let h ← re_digits? a
    let sec ← re_seconds? b
    pure ((h : ℚ) * 3600 + sec)
  | [a, b, c] => do
    let h ← re_digits? a
    let m ← re_digits? b
    if b.length == 1 || b.length == 2 then
      let sec ← re_seconds? c
      pure ((h : ℚ) * 3600 + (m : ℚ) * 60 + sec)
    else none
  | _ => none

/-- app.py `parse_timecode(s)`: strip; reject empty; split on `':'`;
1 field → `float`, 2 fields → `int(m)*60 + float(sec)`, 3 fields →
`int(h)*3600 + int(m)*60 + float(sec)`; otherwise try `_time_re` and
raise `ValueError(f"Invalid time format: {s}")` on no match.  Errors are
the `ValueError` messages (conversion failures carry the Python builtin
message shape). -/
def parse_timecode (s : String) : Except String ℚ :=
  let t := pyStripChars s.data
  if t.isEmpty then Except.error "Empty timecode"
  else
    match pySplit ':' t with
    | [a] =>
      match pyFloat? a with
      | some q => Except.ok q
      | none => Except.error ("could not convert string to float: " ++ String.mk a)
    | [m, sec] =>
      match pyInt? m with
      | none => Except.error ("invalid literal for int() with base 10: " ++ String.mk m)
      | some mi =>
        match pyFloat? sec with
        | none => Except.error ("could not convert string to float: " ++ String.mk sec)
        | some qs => Except.ok ((mi : ℚ) * 60 + qs)
    | [h, m, sec] =>
      match pyInt? h with
      | none => Except.error ("invalid literal for int() with base 10: " ++ String.mk h)
      | some hi =>
        match pyInt? m with
        | none => Except.error ("invalid literal for int() with base 10: " ++ String.mk m)
        | some mi =>
          match pyFloat? sec with
          | none => Except.error ("could not convert string to float: " ++ String.mk sec)
          | some qs => Except.ok ((hi : ℚ) * 3600 + (mi : ℚ) * 60 + qs)
    | _ =>
      match time_re_match t with
      | some q => Except.ok q
      | none => Except.error ("Invalid time format: " ++ String.mk t)

/-!
## Media probe and the `video_cropper` route (app.py lines 853-911, 939-951)
-/

/-- app.py `ffprobe_duration_seconds(in_path)`: the external `ffprobe`
invocation is modelled by its outcome — `.error` when `check_output`
raised (tool missing or non-zero exit), `.ok out` with the captured
standard output otherwise; the captured output is stripped and fed to
`float()`. -/
def ffprobe_duration_seconds (probeRun : Except String String) :
    Except String ℚ :=
  match probeRun with
  | Except.error e => Except.error e
  | Except.ok out =>
    match pyFloat? (pyStripChars out.data) with
    | some q => Except.ok q
    | none =>
      Except.error ("could not convert string to float: " ++
        String.mk (pyStripChars out.data))

/-- What the `video_cropper` POST handler does after the upload checks:
either renders an error message or reaches the ffmpeg transcode with the
parsed times. -/
inductive CropOutcome where
  | failure (msg : String)
  | transcode (start_s end_s : ℚ)
deriving DecidableEq

/-- Two-decimal rendering used in the duration error message
(`f"{dur:.2f}"`), for non-negative durations. -/
def fmt2 (q : ℚ) : String :=
  let cents : ℤ := round (q * 100)
  toString (cents / 100) ++ "." ++
    (let r := (cents % 100).toNat
     (if r < 10 then "0" else "") ++ toString r)

/-- The timecode/validation slice of the `video_cropper` POST handler
(app.py lines 865-887): parse both timecodes (a `ValueError` is rendered
as the error message), reject `end_s <= start_s`, probe the duration
swallowing any probe exception (`dur = None`), reject out-of-range times
only when a duration was obtained, and otherwise proceed to
`remove_segment_with_concat`.  The upload-presence and extension checks
preceding this slice are taken as passed. -/
def video_cropper_post (startStr endStr : String)
    (probeRun : Except String String) : CropOutcome :=
  match parse_timecode startStr with
  | Except.error e => .failure e
  | Except.ok start_s =>
    match parse_timecode endStr with
    | Except.error e => .failure e
    | Except.ok end_s =>
      if end_s ≤ start_s then
        .failure "End time must be greater than start time."
      else
        match (ffprobe_duration_seconds probeRun).toOption with
        | some dur =>
          if start_s < 0 || dur < end_s then
            .failure ("Times must be within video duration (" ++ fmt2 dur ++ "s).")
          else .transcode start_s end_s
        | none => .transcode start_s end_s

/-!
## Segment Remover (`remove_segment_with_concat`, app.py lines 953-983)

`start_s` and `end_s` reach the command line only through their decimal
rendering inside the f-string, so the builders take that rendering.
-/

/-- The `filter_complex` graph built by `remove_segment_with_concat`. -/
def filter_graph (startRepr endRepr : String) : String :=
  "[0:v]trim=end=" ++ startRepr ++ ",setpts=PTS-STARTPTS[v0];" ++
  "[0:a]atrim=end=" ++ startRepr ++ ",asetpts=PTS-STARTPTS[a0];" ++
  "[0:v]trim=start=" ++ endRepr ++ ",setpts=PTS-STARTPTS[v1];" ++
  "[0:a]atrim=start=" ++ endRepr ++ ",asetpts=PTS-STARTPTS[a1];" ++
  "[v0][a0][v1][a1]concat=n=2:v=1:a=1[v][a]"

/-- The full ffmpeg argument vector passed to `subprocess.check_call`. -/
def remove_segment_with_concat_cmd (inPath startRepr endRepr outPath : String) :
    List String :=
  ["ffmpeg", "-y",
   "-i", inPath,
   "-filter_complex", filter_graph startRepr endRepr,
   "-map", "[v]",
   "-map", "[a]",
   "-c:v", "libx264",
   "-c:a", "aac",
   "-movflags", "+faststart",
   "-preset", "veryfast",
   "-crf", "20",
   outPath]

/-!
## Lemmas about the retry loops
-/

/-- The inner loop under all-retryable attempts consumes every recipe in
order and threads `last_err` through each failure. -/
theorem try_formats_all_retry (oracle : ClientProfile → FormatRecipe → YdlResult)
    (cl : ClientProfile) :
    ∀ (fs : List FormatRecipe) (le : Option String),
      (∀ f ∈ fs, isRetry (oracle cl f) = true) →
      try_formats oracle cl fs le =
        (fs.map (fun f => (cl, f)), lastErrAfter oracle cl fs le, false) := by
  intro fs
  induction fs with
  | nil => intro le _; rfl
  | cons f fs ih =>
    intro le hall
    have hf : isRetry (oracle cl f) = true := hall f (List.mem_cons_self f fs)
    have hrest : ∀ g ∈ fs, isRetry (oracle cl g) = true :=
      fun g hg => hall g (List.mem_cons_of_mem f hg)
    cases hy : oracle cl f with
    | ret code =>
      cases h0 : (code == 0) with
      | true => rw [hy] at hf; simp [isRetry, classify, h0] at hf
      | false =>
        simp [try_formats, hy, h0, ih _ hrest, lastErrAfter, retryMsg, classify]
    | downloadErr msg =>
      cases hh : retryable_msg_hit msg with
      | false => rw [hy] at hf; simp [isRetry, classify, hh] at hf
      | true =>
        simp [try_formats, hy, hh, ih _ hrest, lastErrAfter, retryMsg, classify]
    | otherExc msg => rw [hy] at hf; simp [isRetry, classify] at hf

/-- The outer loop under all-retryable attempts enumerates the full
profile × recipe product in order. -/
theorem try_clients_all_retry (oracle : ClientProfile → FormatRecipe → YdlResult)
    (want : String) :
    ∀ (cs : List ClientProfile) (le : Option String),
      (∀ c ∈ cs, ∀ f ∈ formats_for want, isRetry (oracle c f) = true) →
      try_clients oracle want cs le =
        (plannedAttempts want cs, clientsLastErr oracle want cs le, false) := by
  intro cs
  induction cs with
  | nil => intro le _; rfl
  | cons c cs ih =>
    intro le hall
    have hc : ∀ f ∈ formats_for want, isRetry (oracle c f) = true :=
      hall c (List.mem_cons_self c cs)
    have hrest : ∀ d ∈ cs, ∀ f ∈ formats_for want, isRetry (oracle d f) = true :=
      fun d hd => hall d (List.mem_cons_of_mem c hd)
    simp [try_clients, try_formats_all_retry oracle c _ le hc, ih _ hrest,
      plannedAttempts, clientsLastErr]

/-- The inner loop's final `last_err` under all-retryable attempts is the
reason of the last recipe's attempt. -/
theorem lastErrAfter_formats (oracle : ClientProfile → FormatRecipe → YdlResult)
    (c : ClientProfile) (want : String) (le : Option String) :
    lastErrAfter oracle c (formats_for want) le =
      some (retryMsg (oracle c (lastFmtFor want))) := by
  by_cases hw : (want != "mp3") = true
  · simp [formats_for, lastFmtFor, hw, FORMAT_ORDER, lastErrAfter]
  · simp only [Bool.not_eq_true] at hw
    simp [formats_for, lastFmtFor, hw, lastErrAfter]

/-- The outer loop's final `last_err` over `CLIENT_ORDER` under
all-retryable attempts is the last profile's last recipe's reason. -/
theorem clientsLastErr_value (oracle : ClientProfile → FormatRecipe → YdlResult)
    (want : String) (le : Option String) :
    clientsLastErr oracle want CLIENT_ORDER le =
      some (retryMsg (oracle ("android", false) (lastFmtFor want))) := by
  simp [CLIENT_ORDER, clientsLastErr, lastErrAfter_formats]

/-- Length of the full enumeration. -/
theorem plannedAttempts_length (want : String) :
    ∀ cs : List ClientProfile,
      (plannedAttempts want cs).length = cs.length * (formats_for want).length := by
  intro cs
  induction cs with
  | nil => simp [plannedAttempts]
  | cons c cs ih =>
    simp [plannedAttempts, ih, List.length_append, List.length_map, Nat.succ_mul,
      Nat.add_comm]

/-- C1: if every (client profile, format recipe) attempt fails with a
retryable failure, `try_download` raises its exhaustion error after
exactly profiles × recipes attempts — 5 × 4 = 20 for a video request,
5 × 1 = 5 for an audio request, never fewer — and the raised error
carries the reason of the most recent (last) failed attempt. -/
theorem try_download_exhausts
    (oracle : ClientProfile → FormatRecipe → YdlResult) (want : String)
    (hall : ∀ c ∈ CLIENT_ORDER, ∀ f ∈ formats_for want, isRetry (oracle c f) = true) :
    (try_download oracle want).1.length = 5 * (formats_for want).length ∧
    (formats_for want).length = (if want != "mp3" then 4 else 1) ∧
    (try_download oracle want).2 =
      Except.error ("Download failed after retries. Last error: " ++
        retryMsg (oracle ("android", false) (lastFmtFor want))) := by
  have hb := try_clients_all_retry oracle want CLIENT_ORDER none hall
  refine ⟨?_, ?_, ?_⟩
  · have h1 : (try_download oracle want).1 = plannedAttempts want CLIENT_ORDER := by
      simp [try_download, hb]
    rw [h1, plannedAttempts_length]
    norm_num [CLIENT_ORDER]
  · by_cases hw : (want != "mp3") = true
    · simp [formats_for, hw, FORMAT_ORDER]
    · simp only [Bool.not_eq_true] at hw
      simp [formats_for, hw]
  · simp [try_download, hb, clientsLastErr_value, optionStr]

/-- All-retryable oracle used to witness exhaustion. -/
def w1oracle : ClientProfile → FormatRecipe → YdlResult :=
  fun _ _ => .downloadErr "HTTP Error 403: Forbidden"

/-- C1 witness: a concrete all-retryable oracle for a video request
makes exactly 20 attempts and the error carries the last reason. -/
theorem try_download_exhausts_witness :
    (∀ c ∈ CLIENT_ORDER, ∀ f ∈ formats_for "mp4", isRetry (w1oracle c f) = true) ∧
    (try_download w1oracle "mp4").1.length = 20 ∧
    (try_download w1oracle "mp4").2 =
      Except.error
        "Download failed after retries. Last error: HTTP Error 403: Forbidden" := by
  have hall : ∀ c ∈ CLIENT_ORDER, ∀ f ∈ formats_for "mp4", isRetry (w1oracle c f) = true := by
    decide
  have h := try_download_exhausts w1oracle "mp4" hall
  refine ⟨hall, ?_, ?_⟩
  · rw [h.1]; decide
  · rw [h.2.2]; rfl

/-- C2: an attempt that raises a non-retryable error abandons the
remaining format recipes for that profile only — the profile contributes
exactly one attempt — and the engine advances to the next profile with
`last_err` set to that reason, rather than abandoning the operation. -/
theorem fatal_skips_remaining_recipes_only
    (oracle : ClientProfile → FormatRecipe → YdlResult) (want : String)
    (c : ClientProfile) (cs : List ClientProfile) (le : Option String)
    (m : String) (f : FormatRecipe) (fs : List FormatRecipe)
    (hfmt : formats_for want = f :: fs)
    (hfatal : classify (oracle c f) = AttemptOutcome.fatal m) :
    try_formats oracle c (formats_for want) le = ([(c, f)], some m, false) ∧
    try_clients oracle want (c :: cs) le =
      ((c, f) :: (try_clients oracle want cs (some m)).1,
       (try_clients oracle want cs (some m)).2) := by
  have hform : try_formats oracle c (formats_for want) le = ([(c, f)], some m, false) := by
    rw [hfmt]
    cases hy : oracle c f with
    | ret code =>
      rw [hy] at hfatal
      cases h0 : (code == 0) <;> simp [classify, h0] at hfatal
    | downloadErr msg =>
      rw [hy] at hfatal
      cases hh : retryable_msg_hit msg with
      | true => simp [classify, hh] at hfatal
      | false =>
        simp [classify, hh] at hfatal
        subst hfatal
        simp [try_formats, hy, hh]
    | otherExc msg =>
      rw [hy] at hfatal
      simp [classify] at hfatal
      subst hfatal
      simp [try_formats, hy]
  refine ⟨hform, ?_⟩
  simp [try_clients, hform]

/-- Always-fatal oracle used to witness the profile-skip behaviour. -/
def w2oracle : ClientProfile → FormatRecipe → YdlResult :=
  fun _ _ => .otherExc "unexpected: boom"

/-- C2 witness: a concrete non-retryable first attempt yields a single
attempt for the profile and the loop proceeds to the next profile. -/
theorem fatal_skips_remaining_recipes_only_witness :
    formats_for "mp4" =
      ("bestvideo[ext=mp4]+bestaudio[ext=m4a]/best[ext=mp4]", some "mp4") ::
        [("(bv*[vcodec*=avc1]/bv*)+(ba[acodec*=mp4a]/ba)/best", some "mp4"),
         ("bv*+ba/best", none), ("best", none)] ∧
    classify (w2oracle ("web", true)
        ("bestvideo[ext=mp4]+bestaudio[ext=m4a]/best[ext=mp4]", some "mp4")) =
      AttemptOutcome.fatal "unexpected: boom" ∧
    (try_formats w2oracle ("web", true) (formats_for "mp4") none =
      ([(("web", true),
         ("bestvideo[ext=mp4]+bestaudio[ext=m4a]/best[ext=mp4]", some "mp4"))],
       some "unexpected: boom", false) ∧
     try_clients w2oracle "mp4" [("web", true), ("ios", true)] none =
      ((("web", true),
        ("bestvideo[ext=mp4]+bestaudio[ext=m4a]/best[ext=mp4]", some "mp4")) ::
         (try_clients w2oracle "mp4" [("ios", true)] (some "unexpected: boom")).1,
       (try_clients w2oracle "mp4" [("ios", true)] (some "unexpected: boom")).2)) := by
  refine ⟨by decide, rfl, ?_⟩
  exact fatal_skips_remaining_recipes_only w2oracle "mp4" ("web", true) [("ios", true)]
    none "unexpected: boom"
    ("bestvideo[ext=mp4]+bestaudio[ext=m4a]/best[ext=mp4]", some "mp4")
    [("(bv*[vcodec*=avc1]/bv*)+(ba[acodec*=mp4a]/ba)/best", some "mp4"),
     ("bv*+ba/best", none), ("best", none)]
    (by decide) rfl

/-- C9: a silent non-zero exit code is classified retryable, is recorded
as `yt-dlp exited with code <ret>` in `last_err`, and the loop continues
with the next format recipe. -/
theorem nonzero_exit_is_retryable
    (oracle : ClientProfile → FormatRecipe → YdlResult) (cl : ClientProfile)
    (f : FormatRecipe) (fs : List FormatRecipe) (le : Option String) (code : Int)
    (hy : oracle cl f = .ret code) (hnz : code ≠ 0) :
    classify (YdlResult.ret code) =
      AttemptOutcome.retryable ("yt-dlp exited with code " ++ toString code) ∧
    try_formats oracle cl (f :: fs) le =
      ((cl, f) ::
        (try_formats oracle cl fs
          (some ("yt-dlp exited with code " ++ toString code))).1,
       (try_formats oracle cl fs
          (some ("yt-dlp exited with code " ++ toString code))).2) := by
  have h0 : (code == 0) = false := by simp [hnz]
  exact ⟨by simp [classify, h0], by simp [try_formats, hy, h0]⟩

/-- Always-exit-1 oracle used to witness the non-zero-exit path. -/
def w9oracle : ClientProfile → FormatRecipe → YdlResult :=
  fun _ _ => .ret 1

/-- C9 witness: exit code 1 at a concrete attempt records the message
and continues. -/
theorem nonzero_exit_is_retryable_witness :
    w9oracle ("web", true) ("best", none) = YdlResult.ret 1 ∧ (1 : Int) ≠ 0 ∧
    (classify (YdlResult.ret 1) =
      AttemptOutcome.retryable ("yt-dlp exited with code " ++ toString (1 : Int)) ∧
     try_formats w9oracle ("web", true) [("best", none), ("bv*+ba/best", none)] none =
      ((("web", true), ("best", none)) ::
        (try_formats w9oracle ("web", true) [("bv*+ba/best", none)]
          (some ("yt-dlp exited with code " ++ toString (1 : Int)))).1,
       (try_formats w9oracle ("web", true) [("bv*+ba/best", none)]
          (some ("yt-dlp exited with code " ++ toString (1 : Int)))).2)) :=
  ⟨rfl, by decide,
   nonzero_exit_is_retryable w9oracle ("web", true) ("best", none)
     [("bv*+ba/best", none)] none 1 rfl (by decide)⟩

/-- C7: the retry order is exactly the fixed sequence of the spec — five
profiles in the stated order, four video recipes in the stated order —
and attempts are enumerated with the profile as the outer loop and the
recipe as the inner loop. -/
theorem retry_order_exact :
    CLIENT_ORDER =
      [("web", true), ("ios", true), ("android", true),
       ("web", false), ("android", false)] ∧
    FORMAT_ORDER =
      [("bestvideo[ext=mp4]+bestaudio[ext=m4a]/best[ext=mp4]", some "mp4"),
       ("(bv*[vcodec*=avc1]/bv*)+(ba[acodec*=mp4a]/ba)/best", some "mp4"),
       ("bv*+ba/best", none),
       ("best", none)] ∧
    formats_for "mp4" = FORMAT_ORDER ∧
    plannedAttempts "mp4" CLIENT_ORDER =
      [(("web", true), ("bestvideo[ext=mp4]+bestaudio[ext=m4a]/best[ext=mp4]", some "mp4")),
       (("web", true), ("(bv*[vcodec*=avc1]/bv*)+(ba[acodec*=mp4a]/ba)/best", some "mp4")),
       (("web", true), ("bv*+ba/best", none)),
       (("web", true), ("best", none)),
       (("ios", true), ("bestvideo[ext=mp4]+bestaudio[ext=m4a]/best[ext=mp4]", some "mp4")),
       (("ios", true), ("(bv*[vcodec*=avc1]/bv*)+(ba[acodec*=mp4a]/ba)/best", some "mp4")),
       (("ios", true), ("bv*+ba/best", none)),
       (("ios", true), ("best", none)),
       (("android", true), ("bestvideo[ext=mp4]+bestaudio[ext=m4a]/best[ext=mp4]", some "mp4")),
       (("android", true), ("(bv*[vcodec*=avc1]/bv*)+(ba[acodec*=mp4a]/ba)/best", some "mp4")),
       (("android", true), ("bv*+ba/best", none)),
       (("android", true), ("best", none)),
       (("web", false), ("bestvideo[ext=mp4]+bestaudio[ext=m4a]/best[ext=mp4]", some "mp4")),
       (("web", false), ("(bv*[vcodec*=avc1]/bv*)+(ba[acodec*=mp4a]/ba)/best", some "mp4")),
       (("web", false), ("bv*+ba/best", none)),
       (("web", false), ("best", none)),
       (("android", false), ("bestvideo[ext=mp4]+bestaudio[ext=m4a]/best[ext=mp4]", some "mp4")),
       (("android", false), ("(bv*[vcodec*=avc1]/bv*)+(ba[acodec*=mp4a]/ba)/best", some "mp4")),
       (("android", false), ("bv*+ba/best", none)),
       (("android", false), ("best", none))] ∧
    (∀ oracle : ClientProfile → FormatRecipe → YdlResult,
      (∀ c ∈ CLIENT_ORDER, ∀ f ∈ formats_for "mp4", isRetry (oracle c f) = true) →
      (try_download oracle "mp4").1 = plannedAttempts "mp4" CLIENT_ORDER) := by
  refine ⟨rfl, rfl, by decide, by decide, ?_⟩
  intro oracle hall
  have hb := try_clients_all_retry oracle "mp4" CLIENT_ORDER none hall
  simp [try_download, hb]

/-- C7 witness: the enumeration hypothesis discharged at a concrete
all-retryable oracle. -/
theorem retry_order_exact_witness :
    (∀ c ∈ CLIENT_ORDER, ∀ f ∈ formats_for "mp4", isRetry (w1oracle c f) = true) ∧
    (try_download w1oracle "mp4").1 = plannedAttempts "mp4" CLIENT_ORDER :=
  ⟨by decide, retry_order_exact.2.2.2.2 w1oracle (by decide)⟩

/-- No attempt in `l` was classified a success. -/
def noSuccessIn (oracle : ClientProfile → FormatRecipe → YdlResult)
    (l : List Attempt) : Prop :=
  ∀ b ∈ l, classify (oracle b.1 b.2) ≠ AttemptOutcome.success

/-- `l` ends in a successful attempt and every earlier attempt was not a
success. -/
def endsInSuccess (oracle : ClientProfile → FormatRecipe → YdlResult)
    (l : List Attempt) : Prop :=
  ∃ pre lastA, l = pre ++ [lastA] ∧
    classify (oracle lastA.1 lastA.2) = AttemptOutcome.success ∧
    noSuccessIn oracle pre

/-- Shape of the inner loop's trace: if it did not succeed, no attempt
was a success; if it succeeded, the trace ends at the first success. -/
theorem try_formats_success_shape
    (oracle : ClientProfile → FormatRecipe → YdlResult) (cl : ClientProfile) :
    ∀ (fs : List FormatRecipe) (le : Option String),
      ((try_formats oracle cl fs le).2.2 = false →
        noSuccessIn oracle (try_formats oracle cl fs le).1) ∧
      ((try_formats oracle cl fs le).2.2 = true →
        endsInSuccess oracle (try_formats oracle cl fs le).1) := by
  intro fs
  induction fs with
  | nil =>
    intro le
    exact ⟨fun _ b hb => absurd hb (List.not_mem_nil b), fun h => by simp [try_formats] at h⟩
  | cons f fs ih =>
    intro le
    cases hy : oracle cl f with
    | ret code =>
      cases h0 : (code == 0) with
      | true =>
        have heq : try_formats oracle cl (f :: fs) le = ([(cl, f)], le, true) := by
          simp [try_formats, hy, h0]
        rw [heq]
        refine ⟨fun h => by simp at h, fun _ => ⟨[], (cl, f), rfl, ?_, ?_⟩⟩
        · simp [classify, hy, h0]
        · exact fun b hb => absurd hb (List.not_mem_nil b)
      | false =>
        have hns : classify (oracle cl f) ≠ AttemptOutcome.success := by
          simp [classify, hy, h0]
        have heq : try_formats oracle cl (f :: fs) le =
            ((cl, f) ::
              (try_formats oracle cl fs
                (some ("yt-dlp exited with code " ++ toString code))).1,
             (try_formats oracle cl fs
                (some ("yt-dlp exited with code " ++ toString code))).2) := by
          simp [try_formats, hy, h0]
        rw [heq]
        have ihle := ih (some ("yt-dlp exited with code " ++ toString code))
        constructor
        · intro hflag b hb
          rcases List.mem_cons.mp hb with hb | hb
          · subst hb; exact hns
          · exact ihle.1 hflag b hb
        · intro hflag
          obtain ⟨pre, lastA, hpre, hsucc, hnos⟩ := ihle.2 hflag
          refine ⟨(cl, f) :: pre, lastA, by rw [hpre]; simp, hsucc, ?_⟩
          intro b hb
          rcases List.mem_cons.mp hb with hb | hb
          · subst hb; exact hns
          · exact hnos b hb
    | downloadErr msg =>
      cases hh : retryable_msg_hit msg with
      | true =>
        have hns : classify (oracle cl f) ≠ AttemptOutcome.success := by
          simp [classify, hy, hh]
        have heq : try_formats oracle cl (f :: fs) le =
            ((cl, f) :: (try_formats oracle cl fs (some msg)).1,
             (try_formats oracle cl fs (some msg)).2) := by
          simp [try_formats, hy, hh]
        rw [heq]
        have ihle := ih (some msg)
        constructor
        · intro hflag b hb
          rcases List.mem_cons.mp hb with hb | hb
          · subst hb; exact hns
          · exact ihle.1 hflag b hb
        · intro hflag
          obtain ⟨pre, lastA, hpre, hsucc, hnos⟩ := ihle.2 hflag
          refine ⟨(cl, f) :: pre, lastA, by rw [hpre]; simp, hsucc, ?_⟩
          intro b hb
          rcases List.mem_cons.mp hb with hb | hb
          · subst hb; exact hns
          · exact hnos b hb
      | false =>
        have heq : try_formats oracle cl (f :: fs) le = ([(cl, f)], some msg, false) := by
          simp [try_formats, hy, hh]
        rw [heq]
        refine ⟨fun _ b hb => ?_, fun h => by simp at h⟩
        rcases List.mem_cons.mp hb with hb | hb
        · subst hb; simp [classify, hy, hh]
        · exact absurd hb (List.not_mem_nil b)
    | otherExc msg =>
      have heq : try_formats oracle cl (f :: fs) le = ([(cl, f)], some msg, false) := by
        simp [try_formats, hy]
      rw [heq]
      refine ⟨fun _ b hb => ?_, fun h => by simp at h⟩
      rcases List.mem_cons.mp hb with hb | hb
      · subst hb; simp [classify, hy]
      · exact absurd hb (List.not_mem_nil b)

/-- Shape of the outer loop's trace: same statement lifted over the
profile list. -/
theorem try_clients_success_shape
    (oracle : ClientProfile → FormatRecipe → YdlResult) (want : String) :
    ∀ (cs : List ClientProfile) (le : Option String),
      ((try_clients oracle want cs le).2.2 = false →
        noSuccessIn oracle (try_clients oracle want cs le).1) ∧
      ((try_clients oracle want cs le).2.2 = true →
        endsInSuccess oracle (try_clients oracle want cs le).1) := by
  intro cs
  induction cs with
  | nil =>
    intro le
    exact ⟨fun _ b hb => absurd hb (List.not_mem_nil b), fun h => by simp [try_clients] at h⟩
  | cons c cs ih =>
    intro le
    have hf := try_formats_success_shape oracle c (formats_for want) le
    cases hflag : (try_formats oracle c (formats_for want) le).2.2 with
    | true =>
      have heq : try_clients oracle want (c :: cs) le =
          try_formats oracle c (formats_for want) le := by
        simp [try_clients, hflag]
      rw [heq]
      exact ⟨fun h => absurd (h.symm.trans hflag) (by simp), fun _ => hf.2 hflag⟩
    | false =>
      have heq : try_clients oracle want (c :: cs) le =
          ((try_formats oracle c (formats_for want) le).1 ++
            (try_clients oracle want cs
              (try_formats oracle c (formats_for want) le).2.1).1,
           (try_clients oracle want cs
              (try_formats oracle c (formats_for want) le).2.1).2) := by
        simp [try_clients, hflag]
      rw [heq]
      have ihle := ih (try_formats oracle c (formats_for want) le).2.1
      constructor
      · intro hflag2 b hb
        rcases List.mem_append.mp hb with hb | hb
        · exact hf.1 hflag b hb
        · exact ihle.1 hflag2 b hb
      · intro hflag2
        obtain ⟨pre, lastA, hpre, hsucc, hnos⟩ := ihle.2 hflag2
        refine ⟨(try_formats oracle c (formats_for want) le).1 ++ pre, lastA,
          by rw [hpre, List.append_assoc], hsucc, ?_⟩
        intro b hb
        rcases List.mem_append.mp hb with hb | hb
        · exact hf.1 hflag b hb
        · exact hnos b hb

/-- C8: the first attempt whose external invocation returns exit code
zero terminates the retry loops immediately — a successful run's trace
ends at the success, with no successful attempt before it and no attempt
after it, and when no attempt succeeds the trace contains no successful
attempt at all. -/
theorem first_success_terminates
    (oracle : ClientProfile → FormatRecipe → YdlResult) (want : String) :
    ((try_clients oracle want CLIENT_ORDER none).2.2 = true →
      endsInSuccess oracle (try_clients oracle want CLIENT_ORDER none).1 ∧
      (try_download oracle want).2 = Except.ok ()) ∧
    ((try_clients oracle want CLIENT_ORDER none).2.2 = false →
      noSuccessIn oracle (try_clients oracle want CLIENT_ORDER none).1) := by
  have h := try_clients_success_shape oracle want CLIENT_ORDER none
  exact ⟨fun hs => ⟨h.2 hs, by simp [try_download, hs]⟩, h.1⟩

/-- Oracle that succeeds exactly at the third (profile, recipe)
attempt. -/
def w8oracle : ClientProfile → FormatRecipe → YdlResult := fun c f =>
  if c == (("web", true) : ClientProfile) &&
      f == (("bv*+ba/best", none) : FormatRecipe) then
    YdlResult.ret 0
  else YdlResult.downloadErr "Requested format is not available"

/-- C8 witness: with success at the third attempt, exactly three
attempts occur, the trace ends in that success, and `try_download`
returns success. -/
theorem first_success_terminates_witness :
    (try_clients w8oracle "mp4" CLIENT_ORDER none).2.2 = true ∧
    (try_clients w8oracle "mp4" CLIENT_ORDER none).1.length = 3 ∧
    endsInSuccess w8oracle (try_clients w8oracle "mp4" CLIENT_ORDER none).1 ∧
    (try_download w8oracle "mp4").2 = Except.ok () := by
  have h := (first_success_terminates w8oracle "mp4").1 (by decide)
  exact ⟨by decide, by decide, h.1, h.2⟩

/-!
## Output Resolver claims
-/

/-- Directory listing with an older `base.webm` iterated before a newer
`base.avi`, and no `base.mp4`. -/
def C3entries : List DirEntry :=
  [⟨"base.webm", 1, true⟩, ⟨"base.avi", 2, true⟩]

/-- C3 counterexample: with no exact `base.mp4` present, the fallback
returns the first glob match in directory-iteration order (`base.webm`),
not the newest matching file (`base.avi`). -/
theorem find_final_file_not_newest :
    find_final_file C3entries "base" "mp4" = some ⟨"base.webm", 1, true⟩ ∧
    newestGlobMatch C3entries "base" = some ⟨"base.avi", 2, true⟩ ∧
    find_final_file C3entries "base" "mp4" ≠ newestGlobMatch C3entries "base" := by
  refine ⟨by decide, by decide, by decide⟩

/-- C3 (amended): the exact `base_name` + canonical extension match is
returned whenever present — even if a newer file with another extension
exists — otherwise the first file in directory-iteration order matching
`base_name.*` is returned (not necessarily the newest), and if neither
exists the route reports the artifact-not-found message instead of
retrying. -/
theorem find_final_file_resolution_order
    (entries : List DirEntry) (base want : String) :
    (∀ e, entries.find? (fun x => x.name == base ++ "." ++ canonicalExt want) = some e →
      find_final_file entries base want = some e) ∧
    (entries.find? (fun x => x.name == base ++ "." ++ canonicalExt want) = none →
      find_final_file entries base want = entries.find? (globMatch base)) ∧
    (find_final_file entries base want = none →
      locate_or_error entries base want =
        Except.error "Finished, but could not locate the output file.") := by
  refine ⟨?_, ?_, ?_⟩
  · intro e he
    simp [find_final_file, he]
  · intro hn
    simp [find_final_file, hn]
  · intro hn
    simp [locate_or_error, hn]

/-- Listing containing `base.mp4` together with a newer `base.webm`. -/
def W3entries : List DirEntry :=
  [⟨"base.webm", 9, true⟩, ⟨"base.mp4", 1, true⟩]

/-- C3 amended-claim witness: exact match preferred over a newer sibling
extension; first-glob fallback; artifact-not-found error on an empty
directory. -/
theorem find_final_file_resolution_order_witness :
    find_final_file W3entries "base" "mp4" = some ⟨"base.mp4", 1, true⟩ ∧
    find_final_file [⟨"base.webm", 1, true⟩] "base" "mp4" =
      some ⟨"base.webm", 1, true⟩ ∧
    locate_or_error [] "base" "mp4" =
      Except.error "Finished, but could not locate the output file." := by
  refine ⟨?_, ?_, ?_⟩
  · exact (find_final_file_resolution_order W3entries "base" "mp4").1 _ (by decide)
  · have h := (find_final_file_resolution_order
      [⟨"base.webm", 1, true⟩] "base" "mp4").2.1 (by decide)
    rw [h]; decide
  · exact (find_final_file_resolution_order [] "base" "mp4").2.2 (by decide)

/-!
## Segment Remover claims
-/

/-- C4: the constructed filter graph trims the video and audio streams
independently to `[0, start)` and `(end, EOF]`, resets each fragment's
timestamps (`setpts`/`asetpts` to `PTS-STARTPTS`), concatenates the two
video and two audio fragments (`concat=n=2:v=1:a=1`), and the transcoder
is invoked with the fixed `libx264`/`aac` codec pair, quality target
`-crf 20`, and the progressive-start `-movflags +faststart` flag. -/
theorem remove_segment_cmd_shape (inPath startRepr endRepr outPath : String) :
    filter_graph startRepr endRepr =
      "[0:v]trim=end=" ++ startRepr ++ ",setpts=PTS-STARTPTS[v0];" ++
      "[0:a]atrim=end=" ++ startRepr ++ ",asetpts=PTS-STARTPTS[a0];" ++
      "[0:v]trim=start=" ++ endRepr ++ ",setpts=PTS-STARTPTS[v1];" ++
      "[0:a]atrim=start=" ++ endRepr ++ ",asetpts=PTS-STARTPTS[a1];" ++
      "[v0][a0][v1][a1]concat=n=2:v=1:a=1[v][a]" ∧
    remove_segment_with_concat_cmd inPath startRepr endRepr outPath =
      ["ffmpeg", "-y", "-i", inPath,
       "-filter_complex", filter_graph startRepr endRepr,
       "-map", "[v]", "-map", "[a]"] ++
      ["-c:v", "libx264", "-c:a", "aac"] ++
      ["-movflags", "+faststart"] ++
      ["-preset", "veryfast"] ++
      ["-crf", "20"] ++
      [outPath] :=
  ⟨rfl, rfl⟩

/-- Equality on `Except` outcomes is decidable when it is on both
components. -/
instance {ε α : Type} [DecidableEq ε] [DecidableEq α] :
    DecidableEq (Except ε α) := fun a b =>
  match a, b with
  | .error e, .error f =>
    match decEq e f with
    | isTrue h => isTrue (h ▸ rfl)
    | isFalse h => isFalse fun hc => h (Except.error.inj hc)
  | .error _, .ok _ => isFalse fun hc => Except.noConfusion hc
  | .ok _, .error _ => isFalse fun hc => Except.noConfusion hc
  | .ok x, .ok y =>
    match decEq x y with
    | isTrue h => isTrue (h ▸ rfl)
    | isFalse h => isFalse fun hc => h (Except.ok.inj hc)

/-- C5: a segment-removal request whose parsed end time is at most its
parsed start time fails with the dedicated error message, and the
transcode step is never reached for that request. -/
theorem crop_rejects_end_le_start
    (startStr endStr : String) (probeRun : Except String String) (s e : ℚ)
    (hs : parse_timecode startStr = Except.ok s)
    (he : parse_timecode endStr = Except.ok e)
    (hle : e ≤ s) :
    video_cropper_post startStr endStr probeRun =
      CropOutcome.failure "End time must be greater than start time." ∧
    ∀ a b : ℚ, video_cropper_post startStr endStr probeRun ≠ CropOutcome.transcode a b := by
  have h : video_cropper_post startStr endStr probeRun =
      CropOutcome.failure "End time must be greater than start time." := by
    simp [video_cropper_post, hs, he, hle]
  exact ⟨h, fun a b => by rw [h]; exact fun hc => by cases hc⟩

/-- C5 witness: start `"10"`, end `"5"` produce the rejection and never
reach the transcoder. -/
theorem crop_rejects_end_le_start_witness :
    parse_timecode "10" = Except.ok 10 ∧
    parse_timecode "5" = Except.ok 5 ∧
    (5 : ℚ) ≤ 10 ∧
    video_cropper_post "10" "5" (Except.error "no ffprobe") =
      CropOutcome.failure "End time must be greater than start time." := by
  refine ⟨by decide, by decide, by decide, ?_⟩
  exact (crop_rejects_end_le_start "10" "5" (Except.error "no ffprobe") 10 5
    (by decide) (by decide) (by decide)).1

/-- C6: when the probe fails to produce a duration (tool missing,
non-zero exit, or non-numeric output — any `.error` outcome of
`ffprobe_duration_seconds`), the duration-range validation is skipped
and the crop still proceeds to the transcode step; the probe failure is
swallowed, never surfaced as a failure outcome. -/
theorem crop_proceeds_on_probe_failure
    (startStr endStr : String) (probeRun : Except String String) (pe : String)
    (s e : ℚ)
    (hs : parse_timecode startStr = Except.ok s)
    (he : parse_timecode endStr = Except.ok e)
    (hgt : ¬ e ≤ s)
    (hp : ffprobe_duration_seconds probeRun = Except.error pe) :
    video_cropper_post startStr endStr probeRun = CropOutcome.transcode s e := by
  simp [video_cropper_post, hs, he, hgt, hp, Except.toOption]

/-- C6 witness: a non-numeric `ffprobe` output (`"N/A"`) is a probe
failure, and the crop of `[5, 10]` still reaches the transcoder. -/
theorem crop_proceeds_on_probe_failure_witness :
    ffprobe_duration_seconds (Except.ok "N/A") =
      Except.error "could not convert string to float: N/A" ∧
    ¬ (10 : ℚ) ≤ 5 ∧
    video_cropper_post "5" "10" (Except.ok "N/A") = CropOutcome.transcode 5 10 := by
  refine ⟨by decide, by decide, ?_⟩
  exact crop_proceeds_on_probe_failure "5" "10" (Except.ok "N/A")
    "could not convert string to float: N/A" 5 10 (by decide) (by decide)
    (by decide) (by decide)

/-!
## Timecode parser claims
-/

/-- C10: the timecode parser accepts exactly the three shapes — a bare
number returns `float(S)`, `M:S` returns `60*int(M) + float(S)`,
`H:M:S` returns `3600*int(H) + 60*int(M) + float(S)` — and raises
`ValueError` for the empty (or whitespace-only) string and for strings
with more than three colon-separated fields (the `_time_re` fallback can
never match three or more colons). -/
theorem parse_timecode_shapes :
    (∀ s : String, pyStripChars s.data = [] →
      parse_timecode s = Except.error "Empty timecode") ∧
    (∀ (s : String) (a : List Char) (q : ℚ),
      pySplit ':' (pyStripChars s.data) = [a] → pyFloat? a = some q →
      parse_timecode s = Except.ok q) ∧
    (∀ (s : String) (m sec : List Char) (mi : ℤ) (qs : ℚ),
      pySplit ':' (pyStripChars s.data) = [m, sec] →
      pyInt? m = some mi → pyFloat? sec = some qs →
      parse_timecode s = Except.ok ((mi : ℚ) * 60 + qs)) ∧
    (∀ (s : String) (hh mm sec : List Char) (hi mi : ℤ) (qs : ℚ),
      pySplit ':' (pyStripChars s.data) = [hh, mm, sec] →
      pyInt? hh = some hi → pyInt? mm = some mi → pyFloat? sec = some qs →
      parse_timecode s = Except.ok ((hi : ℚ) * 3600 + (mi : ℚ) * 60 + qs)) ∧
    (∀ s : String, 3 < (pySplit ':' (pyStripChars s.data)).length →
      parse_timecode s =
        Except.error ("Invalid time format: " ++ String.mk (pyStripChars s.data))) := by
  refine ⟨?_, ?_, ?_, ?_, ?_⟩
  · intro s h
    simp [parse_timecode, h]
  · intro s a q h1 h2
    have hne : (pyStripChars s.data).isEmpty = false := by
      cases hd : pyStripChars s.data with
      | nil =>
        rw [hd] at h1
        simp [pySplit] at h1
        subst h1
        simp [show pyFloat? [] = none from by decide] at h2
      | cons c l => simp
    simp [parse_timecode, hne, h1, h2]
  · intro s m sec mi qs h1 h2 h3
    have hne : (pyStripChars s.data).isEmpty = false := by
      cases hd : pyStripChars s.data with
      | nil => rw [hd] at h1; simp [pySplit] at h1
      | cons c l => simp
    simp [parse_timecode, hne, h1, h2, h3]
  · intro s hh mm sec hi mi qs h1 h2 h3 h4
    have hne : (pyStripChars s.data).isEmpty = false := by
      cases hd : pyStripChars s.data with
      | nil => rw [hd] at h1; simp [pySplit] at h1
      | cons c l => simp
    simp [parse_timecode, hne, h1, h2, h3, h4]
  · intro s hlen
    have hne : (pyStripChars s.data).isEmpty = false := by
      cases hd : pyStripChars s.data with
      | nil => rw [hd] at hlen; simp [pySplit] at hlen
      | cons c l => simp
    rcases hsp : pySplit ':' (pyStripChars s.data) with _ | ⟨a, _ | ⟨b, _ | ⟨c, _ | ⟨d, rest⟩⟩⟩⟩
    · rw [hsp] at hlen; simp at hlen
    · rw [hsp] at hlen; simp at hlen
    · rw [hsp] at hlen; simp at hlen
    · rw [hsp] at hlen; simp at hlen
    · simp [parse_timecode, hne, hsp, time_re_match]

/-- C10 witness: the docstring's own examples plus the two rejection
cases. -/
theorem parse_timecode_shapes_witness :
    parse_timecode "21" = Except.ok 21 ∧
    parse_timecode " 1:05 " = Except.ok 65 ∧
    parse_timecode "02:01:05" = Except.ok 7265 ∧
    parse_timecode "   " = Except.error "Empty timecode" ∧
    parse_timecode "1:2:3:4" = Except.error "Invalid time format: 1:2:3:4" := by
  refine ⟨?_, ?_, ?_, ?_, ?_⟩
  · have h := parse_timecode_shapes.2.1 "21" ['2', '1'] 21 (by decide) (by decide)
    rw [h]
  · have h := parse_timecode_shapes.2.2.1 " 1:05 " ['1'] ['0', '5'] 1 5
      (by decide) (by decide) (by decide)
    rw [h]; norm_num
  · have h := parse_timecode_shapes.2.2.2.1 "02:01:05" ['0', '2'] ['0', '1']
      ['0', '5'] 2 1 5 (by decide) (by decide) (by decide) (by decide)
    rw [h]; norm_num
  · exact parse_timecode_shapes.1 "   " (by decide)
  · have h := parse_timecode_shapes.2.2.2.2 "1:2:3:4" (by decide)
    rw [h]; decide
